import Mathlib

/-!
Verification of the directus-hook-sqlite-perf extension.

The current implementation of the hook (the pushPragma-based revision of
the module, whose parts are: isNumeric, checkKnexConfig, getPragmasFromEnv
with the inner pushPragma closure, setPragmasOnConnection and the default
export) is embedded shallowly below.  Environment variables are
`Option String` fields, JavaScript truthiness is modelled explicitly,
logger calls are collected into explicit lists, and the asynchronous
orchestration is modelled as a deterministic event trace: each
`pool.acquire`, `connection.run` and `pool.release` call becomes one
trace event, parameterised by the behaviour of the pool and of the
connections.
-/

namespace DHSP

/-- The eight DHSP environment variables read by the hook.  A field holds
`none` when the variable is unset and `some v` when it is set to the
string `v`. -/
structure Env where
  DHSP_BUSY_TIMEOUT : Option String := none
  DHSP_JOURNAL_MODE : Option String := none
  DHSP_JOURNAL_SIZE : Option String := none
  DHSP_CACHE_SIZE : Option String := none
  DHSP_SYNCHRONOUS : Option String := none
  DHSP_TEMP_STORE : Option String := none
  DHSP_MMAP_SIZE : Option String := none
  DHSP_PAGE_SIZE : Option String := none
deriving DecidableEq

/-! ### JavaScript numeric coercion

`isNumeric(value)` in the source computes `Number(value)` and checks
`!isNaN(...)`; since `typeof Number(x)` is always the string `number`,
the function is exactly: `Number(value)` is not NaN.  For a string
argument, `Number` trims ECMAScript whitespace and then accepts the
empty string (value 0), a decimal literal with optional sign, exponent
and fractional part, signed `Infinity`, or an unsigned hex, octal or
binary literal.  The recogniser below decides exactly that grammar. -/

/-- ECMAScript WhiteSpace and LineTerminator code points trimmed by
`Number(string)`. -/
def isJsWhitespace (c : Char) : Bool :=
  c == ' ' || c == '\t' || c == '\n' || c == '\r' ||
  c.val == 11 || c.val == 12 || c.val == 0xA0 || c.val == 0xFEFF ||
  c.val == 0x1680 || (0x2000 ≤ c.val && c.val ≤ 0x200A) ||
  c.val == 0x2028 || c.val == 0x2029 || c.val == 0x202F ||
  c.val == 0x205F || c.val == 0x3000

def isDecDigit (c : Char) : Bool := 48 ≤ c.val && c.val ≤ 57

def isHexDigit (c : Char) : Bool :=
  isDecDigit c || (97 ≤ c.val && c.val ≤ 102) || (65 ≤ c.val && c.val ≤ 70)

def isOctDigit (c : Char) : Bool := 48 ≤ c.val && c.val ≤ 55

def isBinDigit (c : Char) : Bool := c.val == 48 || c.val == 49

/-- All characters satisfy the digit predicate. -/
def allDigits (p : Char → Bool) : List Char → Bool
  | [] => true
  | c :: cs => p c && allDigits p cs

/-- At least one character, all satisfying the digit predicate. -/
def someDigits (p : Char → Bool) (cs : List Char) : Bool :=
  !cs.isEmpty && allDigits p cs

/-- An optional ECMAScript ExponentPart consuming the whole rest. -/
def isExpPart : List Char → Bool
  | [] => true
  | c :: cs =>
    (c == 'e' || c == 'E') &&
      (match cs with
       | '+' :: ds => someDigits isDecDigit ds
       | '-' :: ds => someDigits isDecDigit ds
       | ds => someDigits isDecDigit ds)

/-- An unsigned ECMAScript decimal literal: `digits [. digits] [exp]`,
or `. digits [exp]`. -/
def isUnsignedDec (cs : List Char) : Bool :=
  let s := cs.span isDecDigit
  if s.1.isEmpty then
    match s.2 with
    | '.' :: rest =>
      let f := rest.span isDecDigit
      !f.1.isEmpty && isExpPart f.2
    | _ => false
  else
    match s.2 with
    | '.' :: rest => isExpPart (rest.span isDecDigit).2
    | rest => isExpPart rest

/-- A signed decimal literal or signed `Infinity`. -/
def isSignedDec (cs : List Char) : Bool :=
  match cs with
  | '+' :: rest => isUnsignedDec rest || rest == "Infinity".toList
  | '-' :: rest => isUnsignedDec rest || rest == "Infinity".toList
  | rest => isUnsignedDec rest || rest == "Infinity".toList

/-- An unsigned hex, octal or binary literal (`0x`, `0o`, `0b`). -/
def isNonDecimal (cs : List Char) : Bool :=
  match cs with
  | '0' :: x :: ds =>
    ((x == 'x' || x == 'X') && someDigits isHexDigit ds) ||
    ((x == 'o' || x == 'O') && someDigits isOctDigit ds) ||
    ((x == 'b' || x == 'B') && someDigits isBinDigit ds)
  | _ => false

/-- Trim ECMAScript whitespace from both ends. -/
def trimJsWs (cs : List Char) : List Char :=
  ((cs.dropWhile isJsWhitespace).reverse.dropWhile isJsWhitespace).reverse

/-- Whether `Number(s)` for the string with these characters is not NaN. -/
def jsNumericChars (cs : List Char) : Bool :=
  let t := trimJsWs cs
  t.isEmpty || isNonDecimal t || isSignedDec t

/-- isNumeric from the source: `Number(value)` is not NaN (see the module
comment above on why the `typeof` conjunct is vacuous). -/
def isNumeric (s : String) : Bool := jsNumericChars s.toList

/-! ### The configuration resolver -/

/-- JavaScript truthiness of an optional string: `undefined` and the
empty string are falsy, every other string is truthy. -/
def truthy : Option String → Bool
  | none => false
  | some s => !s.toList.isEmpty

/-- Template-literal stringification of a value that may be the
JavaScript `undefined` (interpolated as the text `undefined`). -/
def jsShow : Option String → String
  | none => "undefined"
  | some s => s

/-- JavaScript `toUpperCase` restricted to the resolver's keys, which
are ASCII: uppercase each character. -/
def toUpperCase (s : String) : String := String.mk (s.toList.map Char.toUpper)

/-- The pushPragma closure from getPragmasFromEnv.  It returns the
pragmas pushed (zero or one) and the logger.error messages emitted
(zero or one) by the call, in order. -/
def pushPragma (key : String) (value : Option String) (numeric : Bool)
    (defaultValue : Option String) : List String × List String :=
  if truthy value then
    if numeric && !isNumeric ((value).getD "") then
      (["PRAGMA " ++ key ++ " = " ++ jsShow defaultValue ++ ";"],
       ["Please use a numeric value for " ++ toUpperCase key])
    else
      (["PRAGMA " ++ key ++ " = " ++ (value).getD "" ++ ";"], [])
  else
    match defaultValue with
    | some d => (["PRAGMA " ++ key ++ " = " ++ d ++ ";"], [])
    | none => ([], [])

/-- PRAGMA_VALUES.journal_mode. -/
def journalModeValues : List String :=
  ["delete", "truncate", "persist", "memory", "wal", "off"]

/-- PRAGMA_VALUES.synchronous. -/
def synchronousValues : List String := ["off", "normal", "full", "extra"]

/-- PRAGMA_VALUES.temp_store. -/
def tempStoreValues : List String := ["default", "file", "memory"]

/-- JavaScript `toLowerCase`; the values compared by the resolver are
matched against ASCII-only legal sets, so lowercasing each character
(ASCII, as Lean's Char.toLower does) decides membership exactly as the
source does. -/
def toLowerCase (s : String) : String := String.mk (s.toList.map Char.toLower)

/-- The value argument built at the call sites of pushPragma for the
three enumerated settings:
`env.X && LEGAL.includes(env.X.toLowerCase()) ? env.X : DEFAULT`. -/
def enumValue (v : Option String) (legal : List String) (dflt : String) :
    Option String :=
  match v with
  | some s =>
    if !s.toList.isEmpty && legal.contains (toLowerCase s) then some s
    else some dflt
  | none => some dflt

/-- getPragmasFromEnv from the source.  The first component is the
returned pragmas array; the second collects the logger.error messages
emitted during the call, in order. -/
def getPragmasFromEnv (env : Env) : List String × List String :=
  ((pushPragma "busy_timeout" env.DHSP_BUSY_TIMEOUT true (some "30000")).1 ++
   (pushPragma "journal_mode"
     (enumValue env.DHSP_JOURNAL_MODE journalModeValues "wal") false none).1 ++
   (pushPragma "journal_size" env.DHSP_JOURNAL_SIZE true (some "5242880")).1 ++
   (pushPragma "cache_size" env.DHSP_CACHE_SIZE true (some "-20000")).1 ++
   (pushPragma "synchronous"
     (enumValue env.DHSP_SYNCHRONOUS synchronousValues "normal") false none).1 ++
   (pushPragma "temp_store"
     (enumValue env.DHSP_TEMP_STORE tempStoreValues "memory") false none).1 ++
   (pushPragma "mmap_size" env.DHSP_MMAP_SIZE true (some "512000000")).1 ++
   (pushPragma "page_size" env.DHSP_PAGE_SIZE true none).1,
   (pushPragma "busy_timeout" env.DHSP_BUSY_TIMEOUT true (some "30000")).2 ++
   (pushPragma "journal_mode"
     (enumValue env.DHSP_JOURNAL_MODE journalModeValues "wal") false none).2 ++
   (pushPragma "journal_size" env.DHSP_JOURNAL_SIZE true (some "5242880")).2 ++
   (pushPragma "cache_size" env.DHSP_CACHE_SIZE true (some "-20000")).2 ++
   (pushPragma "synchronous"
     (enumValue env.DHSP_SYNCHRONOUS synchronousValues "normal") false none).2 ++
   (pushPragma "temp_store"
     (enumValue env.DHSP_TEMP_STORE tempStoreValues "memory") false none).2 ++
   (pushPragma "mmap_size" env.DHSP_MMAP_SIZE true (some "512000000")).2 ++
   (pushPragma "page_size" env.DHSP_PAGE_SIZE true none).2)

/-- The environment with every DHSP variable unset. -/
def envUnset : Env := {}

/-- The seven default directives, in resolver order. -/
def defaultPragmas : List String :=
  ["PRAGMA busy_timeout = 30000;", "PRAGMA journal_mode = wal;",
   "PRAGMA journal_size = 5242880;", "PRAGMA cache_size = -20000;",
   "PRAGMA synchronous = normal;", "PRAGMA temp_store = memory;",
   "PRAGMA mmap_size = 512000000;"]

/-! ### The connection applier and the orchestration entry point

The asynchronous parts are embedded as deterministic event traces.  A
connection is identified by the index at which the startup loop acquired
it.  The behaviour of the host pool is a parameter `acqErr` giving, for
each acquisition attempt, the error the awaited acquire promise rejects
with (`none` = the attempt succeeds); the behaviour of the connections
is a parameter `execErr` giving, for a connection and a statement, the
error `connection.run` reports (`none` = success).  Thrown JavaScript
errors are modelled by their message string; the catch block of the
entry point logs the aggregate message and then `error.message`. -/

/-- One observable action of the hook: a leveled logger call, the
registration of the createSuccess handler, a successful pool
acquisition, a statement execution on a connection, or a release. -/
inductive Event where
  | warn (msg : String)
  | info (msg : String)
  | debugMsg (msg : String)
  | debugArr (msgs : List String)
  | errorMsg (msg : String)
  | registerHandler
  | acquire (conn : Nat)
  | exec (conn : Nat) (stmt : String)
  | release (conn : Nat)
deriving DecidableEq

/-- The knex handle fields the hook reads: the configured client engine
and the pool's min/max configuration. -/
structure Database where
  client : String
  poolMin : Int
  poolMax : Nat
deriving DecidableEq

/-- checkKnexConfig from the source: advisory log lines about the pool
configuration. -/
def checkKnexConfig (db : Database) : List Event :=
  (if db.poolMin ≠ 0 then
    [Event.warn
      "Suggestion: set DB_POOL__MIN to 0 to make sure unused connections are cleared"]
   else []) ++
  (if db.poolMax > 1 then
    [Event.info
      "If you see SQLITE_BUSY errors consider setting DB_POOL__MAX to 1 to prevent those."]
   else [])

/-- setPragmasOnConnection from the source.  getPragmasFromEnv runs
first (logging its validation errors), the pragmas array is logged at
debug level, and then `pragmas.map` eagerly calls `connection.run` on
every pragma before `Promise.all` awaits any of them, so every statement
is executed; under the serialized execution of the embedded engine the
first rejection, and hence the value `Promise.all` rejects with, is the
error of the first failing statement in array order. -/
def setPragmasOnConnection (execErr : Nat → String → Option String)
    (conn : Nat) (env : Env) : List Event × Option String :=
  ((getPragmasFromEnv env).2.map Event.errorMsg ++
   [Event.debugArr (getPragmasFromEnv env).1] ++
   (getPragmasFromEnv env).1.map (Event.exec conn),
   ((getPragmasFromEnv env).1.filterMap (execErr conn)).head?)

/-- The startup acquisition loop: `for count = 0; count < pool.max;`
acquire one connection per iteration, collecting the acquired
connections; a rejected acquire promise throws out of the loop.  Returns
the trace, the acquired connections in order, and the thrown error, if
any. -/
def acquireLoop (acqErr : Nat → Option String) (i : Nat) :
    Nat → List Event × List Nat × Option String
  | 0 => ([], [], none)
  | n + 1 =>
    match acqErr i with
    | some e => ([], [], some e)
    | none =>
      let rest := acquireLoop acqErr (i + 1) n
      (Event.acquire i :: rest.1, i :: rest.2.1, rest.2.2)

/-- The startup apply loop: `for (const conn of connections)` await
setPragmasOnConnection, logging the celebratory debug line after each
success; a rejection throws out of the loop. -/
def applyLoop (execErr : Nat → String → Option String) (env : Env) :
    List Nat → List Event × Option String
  | [] => ([], none)
  | c :: cs =>
    match (setPragmasOnConnection execErr c env).2 with
    | some e => ((setPragmasOnConnection execErr c env).1, some e)
    | none =>
      ((setPragmasOnConnection execErr c env).1 ++
        Event.debugMsg "🔥 pragmas loaded!" :: (applyLoop execErr env cs).1,
       (applyLoop execErr env cs).2)

/-- The catch block of the entry point: the aggregate failure line
followed by the thrown error's message (the rejection values produced by
the pool and by `connection.run` are Error objects, so the
`typeof error` branch does not fire and `error.message` is logged). -/
def catchEvents : Option String → List Event
  | none => []
  | some e =>
    [Event.errorMsg "Failed to set SQLite settings.", Event.errorMsg e]

/-- The default export of the module: the orchestration entry point.
Guards on the engine, emits the advisory configuration lines, registers
the createSuccess handler, then inside try/catch/finally acquires
`pool.max` connections, applies the pragmas to each, and releases every
acquired connection. -/
def defaultExport (db : Database) (env : Env)
    (acqErr : Nat → Option String)
    (execErr : Nat → String → Option String) : List Event :=
  if db.client ≠ "sqlite3" then []
  else
    let acq := acquireLoop acqErr 0 db.poolMax
    let body :=
      match acq.2.2 with
      | some e => acq.1 ++ catchEvents (some e)
      | none =>
        let app := applyLoop execErr env acq.2.1
        match app.2 with
        | some e => acq.1 ++ app.1 ++ catchEvents (some e)
        | none =>
          acq.1 ++ app.1 ++
            [Event.info "Successfully loaded perf settings for SQLite."]
    checkKnexConfig db ++ [Event.registerHandler] ++
      Event.debugMsg
        ("try to acquire " ++ toString db.poolMax ++ " connections!") ::
      body ++ acq.2.1.map Event.release

/-! ### Trace observations -/

/-- The connections successfully acquired, in trace order. -/
def acquiresOf (tr : List Event) : List Nat :=
  tr.filterMap fun e =>
    match e with
    | Event.acquire i => some i
    | _ => none

/-- The connections released, in trace order. -/
def releasesOf (tr : List Event) : List Nat :=
  tr.filterMap fun e =>
    match e with
    | Event.release i => some i
    | _ => none

/-- The statement of an execution event on connection `c`. -/
def execStmtOn (c : Nat) : Event → Option String
  | Event.exec c2 s => if c2 = c then some s else none
  | _ => none

/-- The statements executed on connection `c`, in trace order. -/
def execsOn (c : Nat) (tr : List Event) : List String :=
  tr.filterMap (execStmtOn c)

/-- Whether the string `needle` occurs as a contiguous substring of
`hay` (used to state that a log message names a variable). -/
def startsWithChars : List Char → List Char → Bool
  | [], _ => true
  | _ :: _, [] => false
  | p :: ps, c :: cs => p == c && startsWithChars ps cs

def hasSubChars (pat : List Char) : List Char → Bool
  | [] => startsWithChars pat []
  | c :: cs => startsWithChars pat (c :: cs) || hasSubChars pat cs

def mentions (needle hay : String) : Bool :=
  hasSubChars needle.toList hay.toList

/-! ### Lemmas about the resolver -/

/-- A value that fails the numeric check is a truthy string: the empty
string coerces to the number 0, so a non-numeric value is nonempty. -/
theorem truthy_of_not_numeric {v : String} (h : isNumeric v = false) :
    truthy (some v) = true := by
  show (!v.toList.isEmpty) = true
  cases hv : v.toList with
  | nil =>
    exfalso
    have : isNumeric v = true := by
      unfold isNumeric jsNumericChars
      rw [hv]
      rfl
    rw [this] at h
    exact Bool.noConfusion h
  | cons c cs => rfl

/-- pushPragma on a non-numeric value of a numeric setting: one
validation error naming the uppercased key, and the default is pushed. -/
theorem pushPragma_not_numeric {v : String} (key : String)
    (dflt : Option String) (h : isNumeric v = false) :
    pushPragma key (some v) true dflt =
      (["PRAGMA " ++ key ++ " = " ++ jsShow dflt ++ ";"],
       ["Please use a numeric value for " ++ toUpperCase key]) := by
  unfold pushPragma
  rw [truthy_of_not_numeric h]
  simp [h]

/-- The enumerated-value selector falls back to the default when the
lowercased value is not in the legal set. -/
theorem enumValue_not_mem {v : String} (legal : List String)
    (dflt : String) (h : legal.contains (toLowerCase v) = false) :
    enumValue (some v) legal dflt = some dflt := by
  show (if (!v.toList.isEmpty && legal.contains (toLowerCase v)) = true
      then some v else some dflt) = some dflt
  rw [h]
  simp

/-! ### Claim theorems for the configuration resolver -/

/-- C3 (counterexample): with DHSP_CACHE_SIZE set to the non-numeric
value abc, the resolver produces exactly one validation error, and that
error message does not name the environment variable DHSP_CACHE_SIZE
(it names only the uppercased setting key CACHE_SIZE). -/
theorem C3_counterexample :
    (getPragmasFromEnv { DHSP_CACHE_SIZE := some "abc" }).2 =
      ["Please use a numeric value for CACHE_SIZE"] ∧
    mentions "DHSP_CACHE_SIZE" "Please use a numeric value for CACHE_SIZE" =
      false := by
  decide

/-- C3 (amended): for each numeric-validated setting with a default
(busy timeout, journal size, cache size, mmap size), a non-numeric
environment value makes the resolver emit the default directive for
that setting and produce exactly one validation error; the error names
the uppercased setting key (the variable name without its DHSP prefix),
for example CACHE_SIZE for DHSP_CACHE_SIZE. -/
theorem C3_numeric_validation (v : String) (h : isNumeric v = false) :
    getPragmasFromEnv { DHSP_BUSY_TIMEOUT := some v } =
      (defaultPragmas, ["Please use a numeric value for BUSY_TIMEOUT"]) ∧
    getPragmasFromEnv { DHSP_JOURNAL_SIZE := some v } =
      (defaultPragmas, ["Please use a numeric value for JOURNAL_SIZE"]) ∧
    getPragmasFromEnv { DHSP_CACHE_SIZE := some v } =
      (defaultPragmas, ["Please use a numeric value for CACHE_SIZE"]) ∧
    getPragmasFromEnv { DHSP_MMAP_SIZE := some v } =
      (defaultPragmas, ["Please use a numeric value for MMAP_SIZE"]) := by
  refine ⟨?_, ?_, ?_, ?_⟩
  · unfold getPragmasFromEnv
    dsimp only
    rw [pushPragma_not_numeric "busy_timeout" (some "30000") h]
    decide
  · unfold getPragmasFromEnv
    dsimp only
    rw [pushPragma_not_numeric "journal_size" (some "5242880") h]
    decide
  · unfold getPragmasFromEnv
    dsimp only
    rw [pushPragma_not_numeric "cache_size" (some "-20000") h]
    decide
  · unfold getPragmasFromEnv
    dsimp only
    rw [pushPragma_not_numeric "mmap_size" (some "512000000") h]
    decide

/-- C3 (witness): the amended claim at the concrete value abc. -/
theorem C3_witness :
    getPragmasFromEnv { DHSP_BUSY_TIMEOUT := some "abc" } =
      (defaultPragmas, ["Please use a numeric value for BUSY_TIMEOUT"]) ∧
    getPragmasFromEnv { DHSP_JOURNAL_SIZE := some "abc" } =
      (defaultPragmas, ["Please use a numeric value for JOURNAL_SIZE"]) ∧
    getPragmasFromEnv { DHSP_CACHE_SIZE := some "abc" } =
      (defaultPragmas, ["Please use a numeric value for CACHE_SIZE"]) ∧
    getPragmasFromEnv { DHSP_MMAP_SIZE := some "abc" } =
      (defaultPragmas, ["Please use a numeric value for MMAP_SIZE"]) :=
  C3_numeric_validation "abc" (by decide)

/-- C4: with none of the eight DHSP variables set, the resolver
produces exactly the seven default directives, in the documented fixed
order, and no directive of any form for page_size, which is the only
setting with no default. -/
theorem C4_defaults :
    getPragmasFromEnv envUnset = (defaultPragmas, []) ∧
    defaultPragmas.length = 7 ∧
    defaultPragmas.all (fun p => !(mentions "page_size" p)) = true := by
  decide

/-- C5: with DHSP_JOURNAL_MODE=WAL and DHSP_BUSY_TIMEOUT=5000 and all
other variables unset, the resolver returns exactly the listed directive
sequence, with the environment-supplied values embedded verbatim (the
uppercase WAL preserved) and page_size omitted. -/
theorem C5_scenario :
    getPragmasFromEnv
        { DHSP_JOURNAL_MODE := some "WAL", DHSP_BUSY_TIMEOUT := some "5000" } =
      (["PRAGMA busy_timeout = 5000;", "PRAGMA journal_mode = WAL;",
        "PRAGMA journal_size = 5242880;", "PRAGMA cache_size = -20000;",
        "PRAGMA synchronous = normal;", "PRAGMA temp_store = memory;",
        "PRAGMA mmap_size = 512000000;"], []) := by
  decide

/-- C6: for each enumerated setting, an environment value whose
lowercasing is not in the legal set makes the resolver fall back to the
setting's default directive with no error logged. -/
theorem C6_enum_fallback (v1 v2 v3 : String)
    (h1 : journalModeValues.contains (toLowerCase v1) = false)
    (h2 : synchronousValues.contains (toLowerCase v2) = false)
    (h3 : tempStoreValues.contains (toLowerCase v3) = false) :
    getPragmasFromEnv { DHSP_JOURNAL_MODE := some v1 } =
      (defaultPragmas, []) ∧
    getPragmasFromEnv { DHSP_SYNCHRONOUS := some v2 } =
      (defaultPragmas, []) ∧
    getPragmasFromEnv { DHSP_TEMP_STORE := some v3 } =
      (defaultPragmas, []) := by
  refine ⟨?_, ?_, ?_⟩
  · unfold getPragmasFromEnv
    dsimp only
    rw [enumValue_not_mem journalModeValues "wal" h1]
    decide
  · unfold getPragmasFromEnv
    dsimp only
    rw [enumValue_not_mem synchronousValues "normal" h2]
    decide
  · unfold getPragmasFromEnv
    dsimp only
    rw [enumValue_not_mem tempStoreValues "memory" h3]
    decide

/-- C6 (witness): the claim at the concrete illegal value bogus for all
three enumerated settings. -/
theorem C6_witness :
    getPragmasFromEnv { DHSP_JOURNAL_MODE := some "bogus" } =
      (defaultPragmas, []) ∧
    getPragmasFromEnv { DHSP_SYNCHRONOUS := some "bogus" } =
      (defaultPragmas, []) ∧
    getPragmasFromEnv { DHSP_TEMP_STORE := some "bogus" } =
      (defaultPragmas, []) :=
  C6_enum_fallback "bogus" "bogus" "bogus" (by decide) (by decide) (by decide)

/-- C7: with DHSP_PAGE_SIZE set to the non-numeric value abc, the
resolver logs the validation error but then, instead of omitting the
page_size directive, pushes the malformed directive
PRAGMA page_size = undefined; (the pushPragma helper substitutes the
undefined default and still pushes). -/
theorem C7_page_size_bug :
    getPragmasFromEnv { DHSP_PAGE_SIZE := some "abc" } =
      (defaultPragmas ++ ["PRAGMA page_size = undefined;"],
       ["Please use a numeric value for PAGE_SIZE"]) := by
  decide

/-- C8: on the same input the resolved sequence contains a directive
whose value, the literal text undefined, is neither the
environment-supplied value abc nor any setting's default (page_size has
no default), violating the well-formedness invariant. -/
theorem C8_invariant_violation :
    "PRAGMA page_size = undefined;" ∈
      (getPragmasFromEnv { DHSP_PAGE_SIZE := some "abc" }).1 ∧
    mentions "abc" "PRAGMA page_size = undefined;" = false := by
  decide

/-! ### Claim theorems for the applier and the orchestration -/

/-- The first element kept by filterMap is the image of the first
element of the list that is not dropped. -/
theorem head_filterMap_first {α β : Type} (f : α → Option β) (d : α) :
    ∀ (l : List α) (k : Nat) (m : β), k < l.length →
      ((l.take k).all fun a => (f a).isNone) = true →
      f (l.getD k d) = some m → (l.filterMap f).head? = some m := by
  intro l
  induction l with
  | nil =>
    intro k m hk _ _
    exact absurd hk (Nat.not_lt_zero k)
  | cons a t ih =>
    intro k m hk hall hat
    cases k with
    | zero =>
      rw [List.getD_cons_zero] at hat
      rw [List.filterMap_cons_some hat]
      rfl
    | succ k =>
      rw [List.take_succ_cons, List.all_cons, Bool.and_eq_true] at hall
      rw [List.getD_cons_succ] at hat
      rw [List.filterMap_cons_none (Option.isNone_iff_eq_none.mp hall.1)]
      exact ih k m (Nat.lt_of_succ_lt_succ hk) hall.2 hat

/-- filterMap over a map whose image is always dropped. -/
theorem filterMap_map_nil {α β γ : Type} {f : β → Option γ} {g : α → β}
    (h : ∀ a, f (g a) = none) : ∀ l : List α, (l.map g).filterMap f = [] := by
  intro l
  induction l with
  | nil => rfl
  | cons a t ih =>
    rw [List.map_cons, List.filterMap_cons_none (h a)]
    exact ih

/-- filterMap over a map whose image is always kept unchanged. -/
theorem filterMap_map_self {α β : Type} {f : β → Option α} {g : α → β}
    (h : ∀ a, f (g a) = some a) : ∀ l : List α, (l.map g).filterMap f = l := by
  intro l
  induction l with
  | nil => rfl
  | cons a t ih =>
    rw [List.map_cons, List.filterMap_cons_some (h a), ih]

/-- The statements executed on connection `c` by one
setPragmasOnConnection call on connection `c2`: the full resolved
sequence when `c2 = c`, nothing otherwise. -/
theorem execsOn_setPragmas (execErr : Nat → String → Option String)
    (c c2 : Nat) (env : Env) :
    execsOn c (setPragmasOnConnection execErr c2 env).1 =
      if c2 = c then (getPragmasFromEnv env).1 else [] := by
  unfold execsOn setPragmasOnConnection
  rw [List.filterMap_append, List.filterMap_append,
    filterMap_map_nil fun a => rfl]
  by_cases h : c2 = c
  · subst h
    rw [filterMap_map_self fun s => by simp [execStmtOn]]
    simp [execStmtOn]
  · rw [filterMap_map_nil fun s => by simp [execStmtOn, h]]
    simp [execStmtOn, h]

/-- C2 (counterexample): on a connection whose second statement (the
journal_mode directive) fails, apply still attempts the later
directives: the trace contains the execution of the seventh directive
(the mmap_size statement), and the error of the failing statement is
what propagates.  This falsifies the claim that apply does not execute
any directive after the failing one. -/
theorem C2_counterexample :
    (setPragmasOnConnection
        (fun _ s => if s == "PRAGMA journal_mode = wal;"
          then some "SQLITE_ERROR: boom" else none) 0 envUnset).2 =
      some "SQLITE_ERROR: boom" ∧
    Event.exec 0 "PRAGMA mmap_size = 512000000;" ∈
      (setPragmasOnConnection
        (fun _ s => if s == "PRAGMA journal_mode = wal;"
          then some "SQLITE_ERROR: boom" else none) 0 envUnset).1 := by
  decide

/-- C2 (amended): apply launches every resolved directive on the
connection before awaiting any of them, so when the k-th directive is
the first to fail, the error of that directive is what propagates to
the caller, every directive of the sequence is nonetheless attempted
(executed) on the connection, and the directives already applied are
not rolled back. -/
theorem C2_apply_attempts_all (env : Env)
    (execErr : Nat → String → Option String) (conn k : Nat) (m : String)
    (hk : k < (getPragmasFromEnv env).1.length)
    (hbefore : (((getPragmasFromEnv env).1.take k).all
      fun s => (execErr conn s).isNone) = true)
    (hat : execErr conn ((getPragmasFromEnv env).1.getD k "") = some m) :
    (setPragmasOnConnection execErr conn env).2 = some m ∧
    execsOn conn (setPragmasOnConnection execErr conn env).1 =
      (getPragmasFromEnv env).1 := by
  constructor
  · show ((getPragmasFromEnv env).1.filterMap (execErr conn)).head? = some m
    exact head_filterMap_first (execErr conn) "" _ k m hk hbefore hat
  · rw [execsOn_setPragmas]
    exact if_pos rfl

/-- C2 (witness): the amended claim at a concrete failing input: the
second default directive rejects, the propagated error is that
directive's error, and all seven directives are executed. -/
theorem C2_witness :
    (setPragmasOnConnection
        (fun _ s => if s == "PRAGMA journal_mode = wal;"
          then some "SQLITE_ERROR: locked" else none) 0 envUnset).2 =
      some "SQLITE_ERROR: locked" ∧
    execsOn 0
      (setPragmasOnConnection
        (fun _ s => if s == "PRAGMA journal_mode = wal;"
          then some "SQLITE_ERROR: locked" else none) 0 envUnset).1 =
      (getPragmasFromEnv envUnset).1 :=
  C2_apply_attempts_all envUnset
    (fun _ s => if s == "PRAGMA journal_mode = wal;"
      then some "SQLITE_ERROR: locked" else none) 0 1 "SQLITE_ERROR: locked"
    (by decide) (by decide) (by decide)

/-- The startup acquisition loop with no acquisition failures acquires
exactly the connections 0 up to max-1, in order, and throws nothing. -/
theorem acquireLoop_ok :
    ∀ (n i : Nat), acquireLoop (fun _ => none) i n =
      ((List.range' i n).map Event.acquire, List.range' i n, none) := by
  intro n
  induction n with
  | zero => intro i; rfl
  | succ n ih =>
    intro i
    show (Event.acquire i :: (acquireLoop (fun _ => none) (i + 1) n).1,
        i :: (acquireLoop (fun _ => none) (i + 1) n).2.1,
        (acquireLoop (fun _ => none) (i + 1) n).2.2) = _
    rw [ih]
    rfl

theorem acquiresOf_append (a b : List Event) :
    acquiresOf (a ++ b) = acquiresOf a ++ acquiresOf b := by
  unfold acquiresOf
  rw [List.filterMap_append]

theorem releasesOf_append (a b : List Event) :
    releasesOf (a ++ b) = releasesOf a ++ releasesOf b := by
  unfold releasesOf
  rw [List.filterMap_append]

theorem execsOn_append (c : Nat) (a b : List Event) :
    execsOn c (a ++ b) = execsOn c a ++ execsOn c b := by
  unfold execsOn
  rw [List.filterMap_append]

theorem acquiresOf_cons_debugMsg (m : String) (tr : List Event) :
    acquiresOf (Event.debugMsg m :: tr) = acquiresOf tr := rfl

theorem releasesOf_cons_debugMsg (m : String) (tr : List Event) :
    releasesOf (Event.debugMsg m :: tr) = releasesOf tr := rfl

theorem execsOn_cons_debugMsg (c : Nat) (m : String) (tr : List Event) :
    execsOn c (Event.debugMsg m :: tr) = execsOn c tr := rfl

theorem acquiresOf_registerHandler :
    acquiresOf [Event.registerHandler] = [] := rfl

theorem releasesOf_registerHandler :
    releasesOf [Event.registerHandler] = [] := rfl

theorem execsOn_registerHandler (c : Nat) :
    execsOn c [Event.registerHandler] = [] := rfl

theorem acquiresOf_info (m : String) : acquiresOf [Event.info m] = [] := rfl

theorem releasesOf_info (m : String) : releasesOf [Event.info m] = [] := rfl

theorem execsOn_info (c : Nat) (m : String) : execsOn c [Event.info m] = [] :=
  rfl

theorem acquiresOf_checkKnex (db : Database) :
    acquiresOf (checkKnexConfig db) = [] := by
  unfold checkKnexConfig acquiresOf
  split <;> split <;> rfl

theorem releasesOf_checkKnex (db : Database) :
    releasesOf (checkKnexConfig db) = [] := by
  unfold checkKnexConfig releasesOf
  split <;> split <;> rfl

theorem execsOn_checkKnex (c : Nat) (db : Database) :
    execsOn c (checkKnexConfig db) = [] := by
  unfold checkKnexConfig execsOn
  split <;> split <;> rfl

theorem acquiresOf_map_acquire (l : List Nat) :
    acquiresOf (l.map Event.acquire) = l := by
  unfold acquiresOf
  refine filterMap_map_self ?_ l
  intro a
  rfl

theorem releasesOf_map_acquire (l : List Nat) :
    releasesOf (l.map Event.acquire) = [] :=
  filterMap_map_nil (fun _ => rfl) l

theorem execsOn_map_acquire (c : Nat) (l : List Nat) :
    execsOn c (l.map Event.acquire) = [] :=
  filterMap_map_nil (fun _ => rfl) l

theorem acquiresOf_map_release (l : List Nat) :
    acquiresOf (l.map Event.release) = [] :=
  filterMap_map_nil (fun _ => rfl) l

theorem releasesOf_map_release (l : List Nat) :
    releasesOf (l.map Event.release) = l := by
  unfold releasesOf
  refine filterMap_map_self ?_ l
  intro a
  rfl

theorem execsOn_map_release (c : Nat) (l : List Nat) :
    execsOn c (l.map Event.release) = [] :=
  filterMap_map_nil (fun _ => rfl) l

theorem acquiresOf_catch (x : Option String) :
    acquiresOf (catchEvents x) = [] := by
  cases x <;> rfl

theorem releasesOf_catch (x : Option String) :
    releasesOf (catchEvents x) = [] := by
  cases x <;> rfl

theorem execsOn_catch (c : Nat) (x : Option String) :
    execsOn c (catchEvents x) = [] := by
  cases x <;> rfl

theorem acquiresOf_setPragmas (execErr : Nat → String → Option String)
    (c : Nat) (env : Env) :
    acquiresOf (setPragmasOnConnection execErr c env).1 = [] := by
  unfold acquiresOf setPragmasOnConnection
  rw [List.filterMap_append, List.filterMap_append,
    filterMap_map_nil fun a => rfl, filterMap_map_nil fun a => rfl]
  rfl

theorem releasesOf_setPragmas (execErr : Nat → String → Option String)
    (c : Nat) (env : Env) :
    releasesOf (setPragmasOnConnection execErr c env).1 = [] := by
  unfold releasesOf setPragmasOnConnection
  rw [List.filterMap_append, List.filterMap_append,
    filterMap_map_nil fun a => rfl, filterMap_map_nil fun a => rfl]
  rfl

theorem acquiresOf_applyLoop (execErr : Nat → String → Option String)
    (env : Env) : ∀ conns : List Nat,
    acquiresOf (applyLoop execErr env conns).1 = [] := by
  intro conns
  induction conns with
  | nil => rfl
  | cons a t ih =>
    unfold applyLoop
    cases hr : (setPragmasOnConnection execErr a env).2 with
    | some e =>
      simp only [hr]
      exact acquiresOf_setPragmas execErr a env
    | none =>
      simp only [hr]
      rw [acquiresOf_append, acquiresOf_setPragmas,
        acquiresOf_cons_debugMsg, ih]
      rfl

theorem releasesOf_applyLoop (execErr : Nat → String → Option String)
    (env : Env) : ∀ conns : List Nat,
    releasesOf (applyLoop execErr env conns).1 = [] := by
  intro conns
  induction conns with
  | nil => rfl
  | cons a t ih =>
    unfold applyLoop
    cases hr : (setPragmasOnConnection execErr a env).2 with
    | some e =>
      simp only [hr]
      exact releasesOf_setPragmas execErr a env
    | none =>
      simp only [hr]
      rw [releasesOf_append, releasesOf_setPragmas,
        releasesOf_cons_debugMsg, ih]
      rfl

theorem execsOn_applyLoop_not_mem (execErr : Nat → String → Option String)
    (env : Env) (c : Nat) : ∀ conns : List Nat, c ∉ conns →
    execsOn c (applyLoop execErr env conns).1 = [] := by
  intro conns
  induction conns with
  | nil => intro _; rfl
  | cons a t ih =>
    intro hc
    have ha : ¬a = c := fun e => hc (e ▸ List.mem_cons_self a t)
    have ht : c ∉ t := fun m => hc (List.mem_cons_of_mem a m)
    unfold applyLoop
    cases hr : (setPragmasOnConnection execErr a env).2 with
    | some e =>
      simp only [hr]
      rw [execsOn_setPragmas]
      exact if_neg ha
    | none =>
      simp only [hr]
      rw [execsOn_append, execsOn_setPragmas, if_neg ha,
        execsOn_cons_debugMsg, ih ht]
      rfl

/-- Each connection reached by the startup apply loop receives the whole
resolved sequence; connections after a failing one receive nothing:
every connection gets all directives or none. -/
theorem execsOn_applyLoop (execErr : Nat → String → Option String)
    (env : Env) (c : Nat) : ∀ conns : List Nat, conns.Nodup →
    execsOn c (applyLoop execErr env conns).1 = (getPragmasFromEnv env).1 ∨
    execsOn c (applyLoop execErr env conns).1 = [] := by
  intro conns
  induction conns with
  | nil => intro _; right; rfl
  | cons a t ih =>
    intro hnd
    rw [List.nodup_cons] at hnd
    unfold applyLoop
    cases hr : (setPragmasOnConnection execErr a env).2 with
    | some e =>
      simp only [hr]
      rw [execsOn_setPragmas]
      by_cases h : a = c
      · left; exact if_pos h
      · right; exact if_neg h
    | none =>
      simp only [hr]
      rw [execsOn_append, execsOn_setPragmas, execsOn_cons_debugMsg]
      by_cases h : a = c
      · left
        rw [if_pos h, execsOn_applyLoop_not_mem execErr env c t (h ▸ hnd.1)]
        exact List.append_nil _
      · rw [if_neg h, List.nil_append]
        exact ih hnd.2

/-- C1 (counterexample): two pool slots, all acquisitions succeed, and
applying the directives on connection 0 fails on its first statement.
The code then acquires and releases both connections, but connection 1
is never configured: no statement at all is executed on it, although
the resolved directive sequence has seven directives.  This falsifies
the claim that an execution error on one connection does not abort
configuration of the other connections. -/
theorem C1_counterexample :
    acquiresOf
      (defaultExport ⟨"sqlite3", 0, 2⟩ envUnset (fun _ => none)
        (fun c _ => if c = 0 then some "SQLITE_ERROR: boom" else none)) =
      [0, 1] ∧
    releasesOf
      (defaultExport ⟨"sqlite3", 0, 2⟩ envUnset (fun _ => none)
        (fun c _ => if c = 0 then some "SQLITE_ERROR: boom" else none)) =
      [0, 1] ∧
    execsOn 1
      (defaultExport ⟨"sqlite3", 0, 2⟩ envUnset (fun _ => none)
        (fun c _ => if c = 0 then some "SQLITE_ERROR: boom" else none)) =
      [] ∧
    (getPragmasFromEnv envUnset).1.length = 7 := by
  decide

/-- C1 (amended): for a pool with maximum N >= 1 whose acquisitions all
succeed, the entry point acquires exactly the N connections 0 up to N-1,
releases exactly those N connections in the guaranteed cleanup step
regardless of execution failures, and configures each connection with
either the entire resolved directive sequence or nothing at all: the
apply loop stops at the first connection whose application fails, so an
execution error on one connection aborts configuration of the remaining
connections but never suppresses a release. -/
theorem C1_acquire_release (db : Database) (env : Env)
    (execErr : Nat → String → Option String) (c : Nat)
    (hc : db.client = "sqlite3") (hN : 1 ≤ db.poolMax) :
    acquiresOf (defaultExport db env (fun _ => none) execErr) =
      List.range db.poolMax ∧
    releasesOf (defaultExport db env (fun _ => none) execErr) =
      List.range db.poolMax ∧
    (execsOn c (defaultExport db env (fun _ => none) execErr) =
        (getPragmasFromEnv env).1 ∨
      execsOn c (defaultExport db env (fun _ => none) execErr) = []) := by
  have hguard : ¬db.client ≠ "sqlite3" := fun hne => hne hc
  unfold defaultExport
  rw [if_neg hguard]
  simp only [acquireLoop_ok]
  cases happ : (applyLoop execErr env (List.range' 0 db.poolMax)).2 with
  | some e =>
    simp only [happ]
    refine ⟨?_, ?_, ?_⟩
    · simp only [acquiresOf_append, acquiresOf_checkKnex,
        acquiresOf_registerHandler, acquiresOf_cons_debugMsg,
        acquiresOf_map_acquire, acquiresOf_applyLoop, acquiresOf_catch,
        acquiresOf_map_release, List.append_nil, List.nil_append,
        List.range_eq_range']
    · simp only [releasesOf_append, releasesOf_checkKnex,
        releasesOf_registerHandler, releasesOf_cons_debugMsg,
        releasesOf_map_acquire, releasesOf_applyLoop, releasesOf_catch,
        releasesOf_map_release, List.append_nil, List.nil_append,
        List.range_eq_range']
    · simp only [execsOn_append, execsOn_checkKnex,
        execsOn_registerHandler, execsOn_cons_debugMsg,
        execsOn_map_acquire, execsOn_catch, execsOn_map_release,
        List.append_nil, List.nil_append]
      exact execsOn_applyLoop execErr env c _ (List.nodup_range' _ _)
  | none =>
    simp only [happ]
    refine ⟨?_, ?_, ?_⟩
    · simp only [acquiresOf_append, acquiresOf_checkKnex,
        acquiresOf_registerHandler, acquiresOf_cons_debugMsg,
        acquiresOf_map_acquire, acquiresOf_applyLoop, acquiresOf_info,
        acquiresOf_map_release, List.append_nil, List.nil_append,
        List.range_eq_range']
    · simp only [releasesOf_append, releasesOf_checkKnex,
        releasesOf_registerHandler, releasesOf_cons_debugMsg,
        releasesOf_map_acquire, releasesOf_applyLoop, releasesOf_info,
        releasesOf_map_release, List.append_nil, List.nil_append,
        List.range_eq_range']
    · simp only [execsOn_append, execsOn_checkKnex,
        execsOn_registerHandler, execsOn_cons_debugMsg,
        execsOn_map_acquire, execsOn_info, execsOn_map_release,
        List.append_nil, List.nil_append]
      exact execsOn_applyLoop execErr env c _ (List.nodup_range' _ _)

/-- C1 (witness): the amended claim at a concrete pool of three slots
with a failing execution on connection 0. -/
theorem C1_witness :
    acquiresOf
      (defaultExport ⟨"sqlite3", 0, 3⟩ envUnset (fun _ => none)
        (fun c _ => if c = 0 then some "SQLITE_ERROR: boom" else none)) =
      List.range 3 ∧
    releasesOf
      (defaultExport ⟨"sqlite3", 0, 3⟩ envUnset (fun _ => none)
        (fun c _ => if c = 0 then some "SQLITE_ERROR: boom" else none)) =
      List.range 3 ∧
    (execsOn 1
        (defaultExport ⟨"sqlite3", 0, 3⟩ envUnset (fun _ => none)
          (fun c _ => if c = 0 then some "SQLITE_ERROR: boom" else none)) =
        (getPragmasFromEnv envUnset).1 ∨
      execsOn 1
        (defaultExport ⟨"sqlite3", 0, 3⟩ envUnset (fun _ => none)
          (fun c _ => if c = 0 then some "SQLITE_ERROR: boom" else none)) =
        []) :=
  C1_acquire_release ⟨"sqlite3", 0, 3⟩ envUnset
    (fun c _ => if c = 0 then some "SQLITE_ERROR: boom" else none) 1
    (by decide) (by decide)

/-- C9: when the configured database engine is not sqlite3, the entry
point returns immediately: the trace is empty, meaning no pool
operation, no handler registration, no statement execution and no log
line of any level. -/
theorem C9_engine_guard (db : Database) (env : Env)
    (acqErr : Nat → Option String)
    (execErr : Nat → String → Option String) (h : db.client ≠ "sqlite3") :
    defaultExport db env acqErr execErr = [] := by
  unfold defaultExport
  rw [if_pos h]

/-- C9 (witness): the claim at the concrete engine pg. -/
theorem C9_witness :
    defaultExport ⟨"pg", 0, 4⟩ envUnset (fun _ => none) (fun _ _ => none) =
      [] :=
  C9_engine_guard ⟨"pg", 0, 4⟩ envUnset (fun _ => none) (fun _ _ => none)
    (by decide)

/-- C10: for each numeric-validated setting with a default, setting the
variable to the empty string behaves exactly like leaving it unset (the
presence check is a truthiness test), so the default directive is
emitted and no validation error is logged. -/
theorem C10_empty_string :
    (∀ e : Env,
      getPragmasFromEnv { e with DHSP_BUSY_TIMEOUT := some "" } =
        getPragmasFromEnv { e with DHSP_BUSY_TIMEOUT := none } ∧
      getPragmasFromEnv { e with DHSP_JOURNAL_SIZE := some "" } =
        getPragmasFromEnv { e with DHSP_JOURNAL_SIZE := none } ∧
      getPragmasFromEnv { e with DHSP_CACHE_SIZE := some "" } =
        getPragmasFromEnv { e with DHSP_CACHE_SIZE := none } ∧
      getPragmasFromEnv { e with DHSP_MMAP_SIZE := some "" } =
        getPragmasFromEnv { e with DHSP_MMAP_SIZE := none }) ∧
    getPragmasFromEnv { DHSP_BUSY_TIMEOUT := some "" } =
      (defaultPragmas, []) ∧
    getPragmasFromEnv { DHSP_JOURNAL_SIZE := some "" } =
      (defaultPragmas, []) ∧
    getPragmasFromEnv { DHSP_CACHE_SIZE := some "" } =
      (defaultPragmas, []) ∧
    getPragmasFromEnv { DHSP_MMAP_SIZE := some "" } =
      (defaultPragmas, []) := by
  refine ⟨fun e => ⟨rfl, rfl, rfl, rfl⟩, ?_, ?_, ?_, ?_⟩ <;> decide

end DHSP
